import Mathlib

/-!
Verification of the notification routing core of thelounge-plugin-external-notify.

The development shallowly embeds the decision engine of
lib/notification-manager.js (shouldNotify, getDeduplicationKey,
formatNotification, processMessage, sendTestNotification) and the
configuration validation of lib/config-manager.js (getDefaultConfig,
validateConfig, load), and proves the testable properties stated for them.

Modelling conventions:
- JavaScript strings are modelled by String; the bodies considered live in
  the Basic Multilingual Plane, where the first 50 UTF-16 code units taken
  by substring(0, 50) are the first 50 characters.
- String.prototype.includes and toLowerCase are modelled on the underlying
  character lists (jsIncludes, jsToLower) so that they compute by kernel
  reduction.
- The wall-clock timestamp fields (observedAt / new Date()) carry no
  decision logic and are omitted from the records.
- Promises are modelled by explicit result values: a Notifier send either
  fulfills or rejects with an error string; Promise.all of a list of
  results is the first rejection if any, otherwise fulfillment.
-/

/-- Model of JavaScript String.prototype.includes: substring containment,
    true for the empty needle. -/
def jsIncludes (hay needle : String) : Bool :=
  hay.data.tails.any fun tail => needle.data.isPrefixOf tail

/-- Model of JavaScript String.prototype.toLowerCase, character by
    character (agrees with the JS behavior on the ASCII strings involved). -/
def jsToLower (s : String) : String :=
  ⟨s.data.map Char.toLower⟩

/-- Model of JavaScript str.substring(0, n): the first n characters. -/
def jsSubstring (s : String) (n : Nat) : String :=
  ⟨s.data.take n⟩

/-- Model of JavaScript String.prototype.startsWith. -/
def jsStartsWith (s pre : String) : Bool :=
  pre.data.isPrefixOf s.data

/-- The messageData record built by handleIrcMessage in index.js and
    consumed by NotificationManager. The timestamp field (new Date()) is
    omitted: no decision logic reads it. -/
structure MessageData where
  type : String
  network : String
  channel : String
  nick : String
  message : String
deriving DecidableEq, Repr

/-- The channels block of config.filters: whitelist and blacklist arrays.
    validateConfig guarantees both arrays exist; an absent channels object
    behaves exactly like two empty arrays in shouldNotify. -/
structure ChannelFilters where
  whitelist : List String
  blacklist : List String
deriving DecidableEq, Repr

/-- The config.filters object consumed by shouldNotify. -/
structure Filters where
  onlyWhenAway : Bool
  highlights : Bool
  keywords : List String
  channels : ChannelFilters
deriving DecidableEq, Repr

/-- NotificationManager.shouldNotify (lib/notification-manager.js lines
    79-141). The clientName argument is client.name; the JS truthiness
    guard on client.name is the test clientName != "".

    Note that the source opens with: if (filters.onlyWhenAway) { } whose
    body is only a TODO comment - away status is never consulted, so the
    embedding has no away input and does not read onlyWhenAway. -/
def shouldNotify (filters : Filters) (clientName : String) (msg : MessageData) : Bool :=
  -- Whitelist - if specified, only notify for these channels
  if filters.channels.whitelist.length > 0 ∧ msg.channel ∉ filters.channels.whitelist then
    false
  -- Blacklist - never notify for these channels
  else if filters.channels.blacklist.length > 0 ∧ msg.channel ∈ filters.channels.blacklist then
    false
  else
    -- keyword loop with break: any keyword that is a case-insensitive
    -- substring of the message sets matchedKeyword (the loop only runs
    -- when keywords is non-empty; any over the empty list is false)
    let lowerMessage := jsToLower msg.message
    let matchedKeyword :=
      filters.keywords.any fun keyword => jsIncludes lowerMessage (jsToLower keyword)
    -- highlight: simple check whether the message contains the client name
    let isHighlight :=
      filters.highlights && clientName != "" &&
        jsIncludes lowerMessage (jsToLower clientName)
    let hasKeywords := decide (filters.keywords.length > 0)
    let hasHighlights := filters.highlights
    if !hasKeywords && !hasHighlights then
      -- No filters configured, notify everything (probably not desired)
      true
    else
      matchedKeyword || (hasHighlights && isHighlight)

/-- The channel gating step of shouldNotify in isolation (lines 89-104):
    true when the message survives both the whitelist and the blacklist
    rejection. -/
def passesChannelGating (filters : Filters) (msg : MessageData) : Bool :=
  !(decide (filters.channels.whitelist.length > 0 ∧
      msg.channel ∉ filters.channels.whitelist)) &&
  !(decide (filters.channels.blacklist.length > 0 ∧
      msg.channel ∈ filters.channels.blacklist))

/-- NotificationManager.getDeduplicationKey (lines 171-176). -/
def getDeduplicationKey (msg : MessageData) : String :=
  msg.network ++ "-" ++ msg.channel ++ "-" ++ msg.nick ++ "-" ++ jsSubstring msg.message 50

/-- The notification record produced by formatNotification; the timestamp
    pass-through is omitted along with the timestamp field. -/
structure Notification where
  title : String
  message : String
deriving DecidableEq, Repr

/-- NotificationManager.formatNotification (lines 146-166). -/
def formatNotification (msg : MessageData) : Notification :=
  let message :=
    if msg.type == "action" then
      "* " ++ msg.nick ++ " " ++ msg.message
    else
      "<" ++ msg.nick ++ "> " ++ msg.message
  let title :=
    if msg.channel != "" && jsStartsWith msg.channel "#" then
      msg.network ++ " - " ++ msg.channel
    else
      msg.network
  { title := title, message := message }

/-- A configured notifier as observed by the manager: its config key name,
    whether (and with what error message) its send rejects, and the
    notifications it has received (the mock notifier of the test suite
    records them the same way). -/
structure Notifier where
  name : String
  failSend : Option String
  sentNotifications : List Notification
deriving DecidableEq, Repr

/-- One notifier.send(notification) call: the notifier records the
    received notification, and the returned promise fulfills or rejects
    according to failSend. -/
def send (n : Notifier) (notif : Notification) : Notifier × Except String Unit :=
  ({ n with sentNotifications := n.sentNotifications ++ [notif] },
   match n.failSend with
   | some e => Except.error e
   | none => Except.ok ())

/-- Promise.all over already-started promises: rejects with the first
    rejection in list order, fulfills when every entry fulfilled. -/
def promiseAll : List (Except String Unit) → Except String Unit
  | [] => Except.ok ()
  | Except.error e :: _ => Except.error e
  | Except.ok () :: rest => promiseAll rest

/-- The mutable state of one NotificationManager: its notifiers map (in
    Object.entries order), the recentNotifications dedup set (as the list
    of inserted keys), and the messages logged through logger.error. -/
structure ManagerState where
  notifiers : List Notifier
  recentNotifications : List String
  errorLog : List String
deriving DecidableEq, Repr

/-- NotificationManager.processMessage (lines 43-74). Filters and client
    name are fields of the manager; the returned Except is the settlement
    of the promise handed back to the caller. Every per-notifier send is
    wrapped in .catch that logs and fulfills, so the awaited Promise.all
    only ever sees fulfilled entries. -/
def processMessage (filters : Filters) (clientName : String)
    (s : ManagerState) (msg : MessageData) : ManagerState × Except String Unit :=
  if !(shouldNotify filters clientName msg) then
    (s, Except.ok ())
  else
    let dedupKey := getDeduplicationKey msg
    if s.recentNotifications.contains dedupKey then
      -- logger.debug duplicate, return
      (s, Except.ok ())
    else
      let s1 := { s with recentNotifications := dedupKey :: s.recentNotifications }
      let notification := formatNotification msg
      let armed := s1.notifiers.map fun n => send n notification
      -- each promise is notifier.send(notification).catch(log error)
      let caught := armed.map fun nr =>
        match nr.2 with
        | Except.error _ => Except.ok ()
        | Except.ok () => Except.ok ()
      let newErrors := armed.filterMap fun nr =>
        match nr.2 with
        | Except.error e => some ("Failed to send via " ++ nr.1.name ++ ": " ++ e)
        | Except.ok () => none
      ({ notifiers := armed.map Prod.fst,
         recentNotifications := s1.recentNotifications,
         errorLog := s1.errorLog ++ newErrors },
       promiseAll caught)

/-- The fixed notification built by sendTestNotification (timestamp
    omitted as above). -/
def testNotification : Notification :=
  { title := "TheLounge External Notify",
    message := "Test notification - your notifications are working!" }

/-- NotificationManager.sendTestNotification (lines 192-206). Unlike the
    dispatch step of processMessage, the promises are pushed without a
    .catch handler, so Promise.all rejects as soon as one send rejects. -/
def sendTestNotification (s : ManagerState) : ManagerState × Except String Unit :=
  let notification := testNotification
  let armed := s.notifiers.map fun n => send n notification
  ({ s with notifiers := armed.map Prod.fst },
   promiseAll (armed.map Prod.snd))

/-- A JSON value as produced by JSON.parse (numbers as integers: every
    numeric literal occurring in the configurations considered is
    integral). Objects keep their key order. -/
inductive JValue where
  | null
  | bool (b : Bool)
  | num (n : Int)
  | str (s : String)
  | arr (elems : List JValue)
  | obj (fields : List (String × JValue))

/-- JavaScript truthiness of a JSON value. -/
def truthy : JValue → Bool
  | JValue.null => false
  | JValue.bool b => b
  | JValue.num n => n != 0
  | JValue.str s => s != ""
  | JValue.arr _ => true
  | JValue.obj _ => true

/-- JavaScript property read v.k: the field of an object, undefined (none)
    otherwise. Primitive values autobox to objects without these keys; a
    read on null would throw, but every such read in config-manager.js is
    behind a truthiness guard except the top-level config, which the
    callers of validateConfig wrap in try/catch falling back to defaults
    (and on the null input the embedding happens to produce exactly those
    defaults, so the divergence is unobservable). -/
def getField : JValue → String → Option JValue
  | JValue.obj fields, k => fields.lookup k
  | _, _ => none

/-- Replacement of the value of an existing key in an association list
    (JavaScript property assignment keeps the key position). -/
def setAssoc : List (String × JValue) → String → JValue → List (String × JValue)
  | [], k, v => [(k, v)]
  | (k1, v1) :: rest, k, v =>
      if k1 == k then (k, v) :: rest else (k1, v1) :: setAssoc rest k v

/-- JavaScript property assignment target.k = v on an object; identity on
    the non-object values (on which the source never performs it). -/
def setField : JValue → String → JValue → JValue
  | JValue.obj fields, k, v => JValue.obj (setAssoc fields k v)
  | j, _, _ => j

/-- The JavaScript a || b pattern applied to a possibly-undefined property
    read: the value when present and truthy, the fallback otherwise. -/
def jsOr : Option JValue → JValue → JValue
  | some v, b => if truthy v then v else b
  | none, b => b

/-- The ternary typeof x === "boolean" ? x : dflt. -/
def validBool (v : Option JValue) (dflt : Bool) : Bool :=
  match v with
  | some (JValue.bool b) => b
  | _ => dflt

/-- The ternary Array.isArray(x) ? x : [] (every array default in
    config-manager.js is the empty array). -/
def validArr (v : Option JValue) : List JValue :=
  match v with
  | some (JValue.arr xs) => xs
  | _ => []

/-- The ternary typeof x === "number" ? x : dflt. -/
def validNum (v : Option JValue) (dflt : Int) : Int :=
  match v with
  | some (JValue.num n) => n
  | _ => dflt

/-- ConfigManager.getDefaultConfig (lib/config-manager.js lines 54-70). -/
def getDefaultConfig : JValue :=
  JValue.obj [
    ("enabled", JValue.bool false),
    ("services", JValue.obj []),
    ("filters", JValue.obj [
      ("onlyWhenAway", JValue.bool true),
      ("highlights", JValue.bool true),
      ("keywords", JValue.arr []),
      ("channels", JValue.obj [
        ("whitelist", JValue.arr []),
        ("blacklist", JValue.arr [])])])]

/-- The pushover normalization block of validateConfig (lines 112-120):
    userKey, apiToken and sound fall back on falsiness, priority on a
    typeof number test. -/
def validPushover (p : JValue) : JValue :=
  JValue.obj [
    ("userKey", jsOr (getField p "userKey") (JValue.str "")),
    ("apiToken", jsOr (getField p "apiToken") (JValue.str "")),
    ("priority", JValue.num (validNum (getField p "priority") 0)),
    ("sound", jsOr (getField p "sound") (JValue.str "pushover"))]

/-- The services part of validateConfig: validated.services is
    config.services || defaults.services (defaults.services = {}), and
    since both alternatives of the fallback are truthy, the subsequent
    if (validated.services) guard is always taken; inside it the pushover
    entry is rewritten in place only when present and truthy. -/
def validServices (sv : Option JValue) : JValue :=
  let services := jsOr sv (JValue.obj [])
  match getField services "pushover" with
  | some p => if truthy p then setField services "pushover" (validPushover p) else services
  | none => services

/-- The filters part of validateConfig: validated.filters is first set to
    config.filters || defaults.filters, which is always truthy, so the
    if (validated.filters) branch always runs and rebuilds the object
    field by field from const filters = config.filters || \x7b\x7d and
    const channels = filters.channels || \x7b\x7d. -/
def validFilters (fv : Option JValue) : JValue :=
  let filters := jsOr fv (JValue.obj [])
  let channels := jsOr (getField filters "channels") (JValue.obj [])
  JValue.obj [
    ("onlyWhenAway", JValue.bool (validBool (getField filters "onlyWhenAway") true)),
    ("highlights", JValue.bool (validBool (getField filters "highlights") true)),
    ("keywords", JValue.arr (validArr (getField filters "keywords"))),
    ("channels", JValue.obj [
      ("whitelist", JValue.arr (validArr (getField channels "whitelist"))),
      ("blacklist", JValue.arr (validArr (getField channels "blacklist")))])]

/-- ConfigManager.validateConfig (lines 73-126). -/
def validateConfig (config : JValue) : JValue :=
  JValue.obj [
    ("enabled", JValue.bool (validBool (getField config "enabled") false)),
    ("services", validServices (getField config "services")),
    ("filters", validFilters (getField config "filters"))]

/-- ConfigManager.load (lines 21-36), with the file system abstracted as
    inputs: whether fs.existsSync finds the config file, and the result of
    JSON.parse on its contents (none when parsing throws). Any throw
    inside the try block is caught and falls through to the default
    configuration. -/
def ConfigManager.load (fileExists : Bool) (parsed : Option JValue) : JValue :=
  if fileExists then
    match parsed with
    | some config => validateConfig config
    | none => getDefaultConfig
  else
    getDefaultConfig

/-- Reading a property of a possibly-missing value: none when the parent
    is absent or has no such property (the spec-side view of a nested
    config path such as filters.channels.whitelist). -/
def optGetField (v : Option JValue) (k : String) : Option JValue :=
  match v with
  | some w => getField w k
  | none => none

/-- Modelled from the spec: the documented default-fill rule for a field
    with a typeof boolean guard - the input value is kept when it is a
    boolean and replaced by the documented default when the field is
    absent or has an invalid type. -/
def defaultFillBool : Option JValue → Bool → Bool
  | some (JValue.bool b), _ => b
  | _, dflt => dflt

/-- Modelled from the spec: the documented default-fill rule for an array
    field - the input value is kept when it is an array and replaced by
    the documented default (the empty array) when the field is absent or
    has an invalid type. -/
def defaultFillArr : Option JValue → List JValue
  | some (JValue.arr xs) => xs
  | _ => []

/-- Modelled from the spec: the documented default-fill rule for a field
    with a typeof number guard - the input value is kept when it is a
    number and replaced by the documented default when the field is
    absent or has an invalid type. -/
def defaultFillNum : Option JValue → Int → Int
  | some (JValue.num n), _ => n
  | _, dflt => dflt

lemma passesChannelGating_iff (f : Filters) (m : MessageData) :
    passesChannelGating f m = true ↔
      ¬(f.channels.whitelist.length > 0 ∧ m.channel ∉ f.channels.whitelist) ∧
      ¬(f.channels.blacklist.length > 0 ∧ m.channel ∈ f.channels.blacklist) := by
  simp [passesChannelGating, List.length_pos, or_iff_not_imp_left]

/-- C1: if the channel whitelist is non-empty and the channel of the
    message is not in it, shouldNotify is false whatever the keyword and
    highlight situation; if the whitelist is empty and the blacklist
    contains the channel, shouldNotify is false. Channel gating comes
    first and short-circuits (the quantification over all keyword lists,
    highlight flags, client names and message bodies expresses this). -/
theorem shouldNotify_channel_gating (f : Filters) (c : String) (m : MessageData) :
    (f.channels.whitelist ≠ [] → m.channel ∉ f.channels.whitelist →
      shouldNotify f c m = false) ∧
    (f.channels.whitelist = [] → m.channel ∈ f.channels.blacklist →
      shouldNotify f c m = false) := by
  constructor
  · intro h1 h2
    have hw : f.channels.whitelist.length > 0 := List.length_pos.mpr h1
    unfold shouldNotify
    rw [if_pos ⟨hw, h2⟩]
  · intro h1 h2
    have hb : f.channels.blacklist.length > 0 :=
      List.length_pos.mpr (List.ne_nil_of_mem h2)
    unfold shouldNotify
    rw [if_neg (by simp [h1]), if_pos ⟨hb, h2⟩]

theorem shouldNotify_channel_gating_witness :
    shouldNotify ⟨true, true, ["urgent"], ⟨["#ops"], []⟩⟩ "testuser"
      ⟨"privmsg", "freenode", "#general", "bob", "urgent: hey testuser"⟩ = false ∧
    shouldNotify ⟨true, true, ["urgent"], ⟨[], ["#spam"]⟩⟩ "testuser"
      ⟨"privmsg", "freenode", "#spam", "bob", "urgent: hey testuser"⟩ = false :=
  ⟨(shouldNotify_channel_gating _ _ _).1 (by decide) (by decide),
   (shouldNotify_channel_gating _ _ _).2 rfl (by decide)⟩

/-- C2: for a message that passes channel gating (with a non-empty client
    name, as every TheLounge client has), if no keywords are configured
    and highlights are disabled then shouldNotify is true for any message;
    otherwise it is true exactly when some configured keyword occurs
    case-insensitively in the body, or highlights are enabled and the body
    case-insensitively contains the client name. -/
theorem shouldNotify_decision_rule (f : Filters) (c : String) (m : MessageData)
    (hgate : passesChannelGating f m = true) (hc : c ≠ "") :
    (f.keywords = [] ∧ f.highlights = false → shouldNotify f c m = true) ∧
    (¬(f.keywords = [] ∧ f.highlights = false) →
      (shouldNotify f c m = true ↔
        (∃ k ∈ f.keywords,
          jsIncludes (jsToLower m.message) (jsToLower k) = true) ∨
        (f.highlights = true ∧
          jsIncludes (jsToLower m.message) (jsToLower c) = true))) := by
  obtain ⟨h1, h2⟩ := (passesChannelGating_iff f m).mp hgate
  have hcb : (c != "") = true := by simpa using hc
  constructor
  · rintro ⟨hk, hh⟩
    simp [shouldNotify, h1, h2, hk, hh]
  · intro hne
    by_cases hk : f.keywords = []
    · have hh : f.highlights = true := by
        cases hhl : f.highlights
        · exact absurd ⟨hk, hhl⟩ hne
        · rfl
      simp [shouldNotify, h1, h2, hk, hh, hcb]
    · have hkpos : 0 < f.keywords.length := List.length_pos.mpr hk
      cases hhl : f.highlights <;>
        simp [shouldNotify, h1, h2, hkpos, hhl, hcb, List.any_eq_true]

theorem shouldNotify_decision_rule_witness :
    passesChannelGating ⟨false, false, [], ⟨[], []⟩⟩
      ⟨"privmsg", "freenode", "#test", "bob", "hello world"⟩ = true ∧
    ("testuser" : String) ≠ "" ∧
    shouldNotify ⟨false, false, [], ⟨[], []⟩⟩ "testuser"
      ⟨"privmsg", "freenode", "#test", "bob", "hello world"⟩ = true :=
  ⟨by decide, by decide,
   (shouldNotify_decision_rule ⟨false, false, [], ⟨[], []⟩⟩ "testuser"
      ⟨"privmsg", "freenode", "#test", "bob", "hello world"⟩
      (by decide) (by decide)).1 ⟨rfl, rfl⟩⟩

/-- C5 counterexample: a channel listed in both whitelist and blacklist is
    rejected, so blacklist membership does change the outcome for a
    whitelisted channel - with identical filters except for the blacklist,
    the same highlighted message notifies in one config and not in the
    other. -/
theorem whitelist_blacklist_counterexample :
    shouldNotify ⟨true, true, [], ⟨["#dev"], []⟩⟩ "alice"
      ⟨"privmsg", "net", "#dev", "bob", "ping alice"⟩ = true ∧
    shouldNotify ⟨true, true, [], ⟨["#dev"], ["#dev"]⟩⟩ "alice"
      ⟨"privmsg", "net", "#dev", "bob", "ping alice"⟩ = false := by
  decide

/-- C5 amended: the whitelist does not override the blacklist; when the
    channel of the message is whitelisted, the whitelist rejection is
    skipped but the blacklist check still runs, so a channel in both lists
    is rejected by channel gating, and a whitelisted channel not in the
    blacklist passes channel gating. -/
theorem blacklist_applies_to_whitelisted (f : Filters) (c : String) (m : MessageData)
    (hw : m.channel ∈ f.channels.whitelist) :
    (m.channel ∈ f.channels.blacklist → shouldNotify f c m = false) ∧
    (m.channel ∉ f.channels.blacklist → passesChannelGating f m = true) := by
  constructor
  · intro hb
    have hbl : f.channels.blacklist.length > 0 :=
      List.length_pos.mpr (List.ne_nil_of_mem hb)
    unfold shouldNotify
    rw [if_neg (by simp [hw]), if_pos ⟨hbl, hb⟩]
  · intro hb
    rw [passesChannelGating_iff]
    exact ⟨by simp [hw], by simp [hb]⟩

theorem blacklist_applies_to_whitelisted_witness :
    shouldNotify ⟨false, true, [], ⟨["#ops"], ["#ops"]⟩⟩ "carol"
      ⟨"privmsg", "net", "#ops", "dan", "carol: look"⟩ = false ∧
    passesChannelGating ⟨false, true, [], ⟨["#ops"], ["#off"]⟩⟩
      ⟨"privmsg", "net", "#ops", "dan", "carol: look"⟩ = true :=
  ⟨(blacklist_applies_to_whitelisted ⟨false, true, [], ⟨["#ops"], ["#ops"]⟩⟩ "carol"
      ⟨"privmsg", "net", "#ops", "dan", "carol: look"⟩ (by decide)).1 (by decide),
   (blacklist_applies_to_whitelisted ⟨false, true, [], ⟨["#ops"], ["#off"]⟩⟩ "carol"
      ⟨"privmsg", "net", "#ops", "dan", "carol: look"⟩ (by decide)).2 (by decide)⟩

/-- C6: getDeduplicationKey is a function of the network, channel, nick
    and the first 50 characters of the body alone: any two messages that
    agree on those four values (in particular, the same message twice, or
    two messages whose bodies differ only beyond position 50) receive the
    same key. -/
theorem getDeduplicationKey_deterministic (m1 m2 : MessageData)
    (hn : m1.network = m2.network) (hc : m1.channel = m2.channel)
    (hk : m1.nick = m2.nick)
    (hb : m1.message.data.take 50 = m2.message.data.take 50) :
    getDeduplicationKey m1 = getDeduplicationKey m2 := by
  simp [getDeduplicationKey, jsSubstring, hn, hc, hk, hb]

theorem getDeduplicationKey_deterministic_witness :
    getDeduplicationKey ⟨"privmsg", "freenode", "#test", "alice",
      "aaaaaaaaaaaaaaaaaaaaaaaaaaaaaaaaaaaaaaaaaaaaaaaaaaXXX"⟩ =
    getDeduplicationKey ⟨"privmsg", "freenode", "#test", "alice",
      "aaaaaaaaaaaaaaaaaaaaaaaaaaaaaaaaaaaaaaaaaaaaaaaaaaYYY"⟩ :=
  getDeduplicationKey_deterministic _ _ rfl rfl rfl (by decide)

/-- C7: the onlyWhenAway gate is not implemented - the body of the
    if (filters.onlyWhenAway) block in the source is an empty TODO, so
    shouldNotify is entirely independent of the onlyWhenAway flag (first
    conjunct) and in particular, at the failing input, a highlighted
    message notifies even though onlyWhenAway is true and the recipient is
    not away (second conjunct). -/
theorem onlyWhenAway_ignored :
    (∀ (f : Filters) (c : String) (m : MessageData) (b : Bool),
        shouldNotify { f with onlyWhenAway := b } c m = shouldNotify f c m) ∧
    shouldNotify ⟨true, true, [], ⟨[], []⟩⟩ "testuser"
      ⟨"privmsg", "freenode", "#test", "bob", "hey testuser"⟩ = true := by
  exact ⟨fun f c m b => rfl, by decide⟩

/-- C10: the dedup key joins its four components with an unescaped dash,
    so distinct (channel, nick) pairs can collide: the two concrete
    messages below come from different senders in different channels yet
    share one key, and processing the first makes processMessage suppress
    the second within the epoch - the single configured notifier receives
    exactly one notification over the two calls. -/
theorem dedupKey_field_boundary_collision :
    getDeduplicationKey ⟨"privmsg", "net", "#chan", "x-y", "hello"⟩ =
      getDeduplicationKey ⟨"privmsg", "net", "#chan-x", "y", "hello"⟩ ∧
    ("x-y" : String) ≠ "y" ∧ ("#chan" : String) ≠ "#chan-x" ∧
    ((processMessage ⟨false, false, [], ⟨[], []⟩⟩ "u"
        (processMessage ⟨false, false, [], ⟨[], []⟩⟩ "u"
          ⟨[⟨"pushover", none, []⟩], [], []⟩
          ⟨"privmsg", "net", "#chan", "x-y", "hello"⟩).1
        ⟨"privmsg", "net", "#chan-x", "y", "hello"⟩).1.notifiers.map
      (fun n => n.sentNotifications.length)) = [1] := by
  decide

lemma armed_fst (l : List Notifier) (notif : Notification) :
    (l.map fun n => send n notif).map Prod.fst
      = l.map fun n => { n with sentNotifications := n.sentNotifications ++ [notif] } := by
  induction l with
  | nil => rfl
  | cons a l ih =>
      simp only [send, List.map_cons] at ih ⊢
      rw [ih]

lemma armed_errors (l : List Notifier) (notif : Notification) :
    ((l.map fun n => send n notif).filterMap fun nr =>
        match nr.2 with
        | Except.error e => some ("Failed to send via " ++ nr.1.name ++ ": " ++ e)
        | Except.ok () => none)
      = l.filterMap fun n =>
          match n.failSend with
          | some e => some ("Failed to send via " ++ n.name ++ ": " ++ e)
          | none => none := by
  induction l with
  | nil => rfl
  | cons a l ih =>
      simp only [send, List.map_cons, List.filterMap_cons] at ih ⊢
      cases h : a.failSend <;> simp [h, ih]

lemma armed_caught_ok (l : List Notifier) (notif : Notification) :
    promiseAll ((l.map fun n => send n notif).map fun nr =>
        match nr.2 with
        | Except.error _ => Except.ok ()
        | Except.ok () => Except.ok ()) = Except.ok () := by
  induction l with
  | nil => rfl
  | cons a l ih =>
      simp only [send, List.map_cons] at ih ⊢
      cases h : a.failSend <;> simp [promiseAll, h, ih, -List.map_map]

lemma processMessage_dispatch (f : Filters) (c : String) (s : ManagerState)
    (m : MessageData)
    (h1 : shouldNotify f c m = true)
    (h2 : s.recentNotifications.contains (getDeduplicationKey m) = false) :
    processMessage f c s m =
      ({ notifiers := s.notifiers.map fun n =>
           { n with sentNotifications :=
               n.sentNotifications ++ [formatNotification m] },
         recentNotifications := getDeduplicationKey m :: s.recentNotifications,
         errorLog := s.errorLog ++ s.notifiers.filterMap fun n =>
           match n.failSend with
           | some e => some ("Failed to send via " ++ n.name ++ ": " ++ e)
           | none => none },
       Except.ok ()) := by
  simp only [processMessage, h1, h2, Bool.not_true, Bool.false_eq_true, if_false]
  rw [armed_fst, armed_errors, armed_caught_ok]

lemma processMessage_duplicate (f : Filters) (c : String) (s : ManagerState)
    (m : MessageData)
    (h : s.recentNotifications.contains (getDeduplicationKey m) = true) :
    processMessage f c s m = (s, Except.ok ()) := by
  by_cases hn : shouldNotify f c m = true
  · simp only [processMessage, hn, h, Bool.not_true, Bool.false_eq_true, if_false, if_true]
  · simp only [processMessage, Bool.not_eq_true] at hn ⊢
    simp [hn]

lemma getDeduplicationKey_prefix_of_eq (m1 m2 : MessageData)
    (hn : m1.network = m2.network) (hc : m1.channel = m2.channel)
    (hk : m1.nick = m2.nick)
    (h : getDeduplicationKey m1 = getDeduplicationKey m2) :
    m1.message.data.take 50 = m2.message.data.take 50 := by
  unfold getDeduplicationKey jsSubstring at h
  rw [hn, hc, hk] at h
  have h2 := congrArg String.data h
  simp only [String.data_append, List.append_assoc] at h2
  have h3 := (List.append_right_inj _).mp h2
  have h4 := (List.append_right_inj _).mp h3
  have h5 := (List.append_right_inj _).mp h4
  have h6 := (List.append_right_inj _).mp h5
  have h7 := (List.append_right_inj _).mp h6
  exact (List.append_right_inj _).mp h7

/-- C3: deduplication in processMessage. For a qualifying message whose
    key is not yet cached: (1) a second identical call within the epoch is
    a complete no-op (the key is checked before formatting and dispatch),
    so (2) two identical calls leave every notifier with exactly one more
    received notification; (3) two qualifying messages whose bodies differ
    within the first 50 characters (same network, channel, nick) are both
    dispatched, one send more per notifier each; (4) the key is inserted
    into recentNotifications by the dispatching call. -/
theorem processMessage_dedup_suppression (f : Filters) (c : String)
    (s : ManagerState) (m m2 : MessageData)
    (h1 : shouldNotify f c m = true)
    (h2 : s.recentNotifications.contains (getDeduplicationKey m) = false)
    (h3 : shouldNotify f c m2 = true)
    (h4 : m2.network = m.network) (h5 : m2.channel = m.channel)
    (h6 : m2.nick = m.nick)
    (h7 : m2.message.data.take 50 ≠ m.message.data.take 50)
    (h8 : s.recentNotifications.contains (getDeduplicationKey m2) = false) :
    processMessage f c (processMessage f c s m).1 m
      = ((processMessage f c s m).1, Except.ok ()) ∧
    ((processMessage f c s m).1.notifiers.map fun n =>
        (n.name, n.sentNotifications.length))
      = (s.notifiers.map fun n => (n.name, n.sentNotifications.length + 1)) ∧
    ((processMessage f c (processMessage f c s m).1 m2).1.notifiers.map fun n =>
        (n.name, n.sentNotifications.length))
      = (s.notifiers.map fun n => (n.name, n.sentNotifications.length + 2)) ∧
    (processMessage f c s m).1.recentNotifications.contains
        (getDeduplicationKey m) = true := by
  have hd1 := processMessage_dispatch f c s m h1 h2
  have hkey2ne : getDeduplicationKey m2 ≠ getDeduplicationKey m :=
    fun he => h7 (getDeduplicationKey_prefix_of_eq m2 m h4 h5 h6 he)
  have hb : (getDeduplicationKey m2 == getDeduplicationKey m) = false :=
    beq_eq_false_iff_ne.mpr hkey2ne
  refine ⟨?_, ?_, ?_, ?_⟩
  · rw [hd1]
    exact processMessage_duplicate f c _ m (by simp)
  · rw [hd1]
    simp
  · rw [hd1]
    rw [processMessage_dispatch f c _ m2 h3
      (by simp; exact ⟨hkey2ne, by simpa using h8⟩)]
    simp [List.map_map]
  · rw [hd1]
    simp

theorem processMessage_dedup_suppression_witness :
    (((processMessage ⟨true, true, [], ⟨[], []⟩⟩ "testuser"
        ⟨[⟨"mock", none, []⟩], [], []⟩
        ⟨"privmsg", "freenode", "#test", "alice", "hey testuser"⟩).1.notifiers.map
      fun n => (n.name, n.sentNotifications.length)) = [("mock", 1)]) ∧
    (((processMessage ⟨true, true, [], ⟨[], []⟩⟩ "testuser"
        (processMessage ⟨true, true, [], ⟨[], []⟩⟩ "testuser"
          ⟨[⟨"mock", none, []⟩], [], []⟩
          ⟨"privmsg", "freenode", "#test", "alice", "hey testuser"⟩).1
        ⟨"privmsg", "freenode", "#test", "alice", "testuser: ping"⟩).1.notifiers.map
      fun n => (n.name, n.sentNotifications.length)) = [("mock", 2)]) := by
  have h := processMessage_dedup_suppression ⟨true, true, [], ⟨[], []⟩⟩ "testuser"
    ⟨[⟨"mock", none, []⟩], [], []⟩
    ⟨"privmsg", "freenode", "#test", "alice", "hey testuser"⟩
    ⟨"privmsg", "freenode", "#test", "alice", "testuser: ping"⟩
    (by decide) (by decide) (by decide) rfl rfl rfl (by decide) (by decide)
  exact ⟨h.2.1, h.2.2.1⟩

/-- C4: for a qualifying, non-duplicate message, the settled result of
    processMessage is always fulfillment (no notifier failure reaches the
    caller), every entry of the notifiers map receives the formatted
    notification exactly once - whatever the failSend status of any
    sibling - and exactly the failing notifiers contribute a logged error
    message. -/
theorem processMessage_fanout_isolation (f : Filters) (c : String)
    (s : ManagerState) (m : MessageData)
    (h1 : shouldNotify f c m = true)
    (h2 : s.recentNotifications.contains (getDeduplicationKey m) = false) :
    (processMessage f c s m).2 = Except.ok () ∧
    (processMessage f c s m).1.notifiers = (s.notifiers.map fun n =>
      { n with sentNotifications :=
          n.sentNotifications ++ [formatNotification m] }) ∧
    (processMessage f c s m).1.errorLog = s.errorLog ++
      (s.notifiers.filterMap fun n =>
        match n.failSend with
        | some e => some ("Failed to send via " ++ n.name ++ ": " ++ e)
        | none => none) := by
  rw [processMessage_dispatch f c s m h1 h2]
  exact ⟨rfl, rfl, rfl⟩

theorem processMessage_fanout_isolation_witness :
    (processMessage ⟨false, false, [], ⟨[], []⟩⟩ "u"
      ⟨[⟨"pushover", some "boom", []⟩, ⟨"mock", none, []⟩], [], []⟩
      ⟨"privmsg", "net", "#c", "bob", "hi"⟩).2 = Except.ok () ∧
    (processMessage ⟨false, false, [], ⟨[], []⟩⟩ "u"
      ⟨[⟨"pushover", some "boom", []⟩, ⟨"mock", none, []⟩], [], []⟩
      ⟨"privmsg", "net", "#c", "bob", "hi"⟩).1.notifiers =
      [⟨"pushover", some "boom", [⟨"net - #c", "<bob> hi"⟩]⟩,
       ⟨"mock", none, [⟨"net - #c", "<bob> hi"⟩]⟩] ∧
    (processMessage ⟨false, false, [], ⟨[], []⟩⟩ "u"
      ⟨[⟨"pushover", some "boom", []⟩, ⟨"mock", none, []⟩], [], []⟩
      ⟨"privmsg", "net", "#c", "bob", "hi"⟩).1.errorLog =
      ["Failed to send via pushover: boom"] := by
  have h := processMessage_fanout_isolation ⟨false, false, [], ⟨[], []⟩⟩ "u"
    ⟨[⟨"pushover", some "boom", []⟩, ⟨"mock", none, []⟩], [], []⟩
    ⟨"privmsg", "net", "#c", "bob", "hi"⟩ (by decide) (by decide)
  refine ⟨h.1, ?_, ?_⟩
  · rw [h.2.1]; decide
  · rw [h.2.2]; decide

lemma promiseAll_armed_ok_iff (l : List Notifier) (notif : Notification) :
    (promiseAll ((l.map fun n => send n notif).map Prod.snd) = Except.ok ()) ↔
      l.all (fun n => n.failSend.isNone) = true := by
  induction l with
  | nil => simp [promiseAll]
  | cons a l ih =>
      simp only [send, List.map_cons] at ih ⊢
      cases h : a.failSend <;> simp [promiseAll, h, ih, -List.map_map]

/-- C9 counterexample: sendTestNotification does not have the
    per-notifier failure containment of the processMessage dispatch step -
    with a single failing notifier its awaited Promise.all rejects, so the
    failure propagates to the caller instead of being caught and logged. -/
theorem sendTestNotification_counterexample :
    (sendTestNotification ⟨[⟨"pushover", some "boom", []⟩], [], []⟩).2
      = Except.error "boom" ∧
    (sendTestNotification ⟨[⟨"pushover", some "boom", []⟩], [], []⟩).1.errorLog
      = [] :=
  ⟨rfl, rfl⟩

/-- C9 amended: sendTestNotification dispatches the fixed test
    notification to every configured notifier, leaves the deduplication
    cache and the error log untouched and never consults shouldNotify
    (it takes no message or filters at all), but its fan-out differs from
    the processMessage dispatch in having no per-notifier catch: the call
    settles successfully exactly when every notifier send fulfills, and a
    notifier rejection propagates to the caller (though every send is
    still initiated before the failure surfaces). -/
theorem sendTestNotification_amended (s : ManagerState) :
    (sendTestNotification s).1.recentNotifications = s.recentNotifications ∧
    (sendTestNotification s).1.errorLog = s.errorLog ∧
    (sendTestNotification s).1.notifiers = (s.notifiers.map fun n =>
      { n with sentNotifications := n.sentNotifications ++ [testNotification] }) ∧
    ((sendTestNotification s).2 = Except.ok () ↔
      s.notifiers.all (fun n => n.failSend.isNone) = true) := by
  refine ⟨rfl, rfl, ?_, ?_⟩
  · simp only [sendTestNotification]
    exact armed_fst s.notifiers testNotification
  · simp only [sendTestNotification]
    exact promiseAll_armed_ok_iff s.notifiers testNotification

theorem sendTestNotification_amended_witness :
    (sendTestNotification ⟨[⟨"pushover", some "err", []⟩, ⟨"mock", none, []⟩],
        ["k1"], ["old"]⟩).1.recentNotifications = ["k1"] ∧
    (sendTestNotification ⟨[⟨"pushover", some "err", []⟩, ⟨"mock", none, []⟩],
        ["k1"], ["old"]⟩).1.notifiers =
      [⟨"pushover", some "err", [testNotification]⟩,
       ⟨"mock", none, [testNotification]⟩] ∧
    ¬((sendTestNotification ⟨[⟨"pushover", some "err", []⟩, ⟨"mock", none, []⟩],
        ["k1"], ["old"]⟩).2 = Except.ok ()) := by
  have h := sendTestNotification_amended
    ⟨[⟨"pushover", some "err", []⟩, ⟨"mock", none, []⟩], ["k1"], ["old"]⟩
  refine ⟨h.1, by rw [h.2.2.1]; decide, ?_⟩
  intro hok
  have := h.2.2.2.mp hok
  simp at this

/-- C8 counterexample: validateConfig guards services only by truthiness,
    not by type - a numeric (mistyped, truthy) services value passes
    through unreplaced instead of becoming the default empty map, and a
    services object carrying a null pushover entry keeps that null in the
    validated result, so an invalid-typed field survives and a null value
    is produced downstream. -/
theorem validateConfig_counterexample :
    getField (validateConfig (JValue.obj [("services", JValue.num 5)]))
        "services" = some (JValue.num 5) ∧
    some (JValue.num 5) ≠ some (JValue.obj []) ∧
    getField (validateConfig (JValue.obj
        [("services", JValue.obj [("pushover", JValue.null)])])) "services"
      = some (JValue.obj [("pushover", JValue.null)]) ∧
    getField (JValue.obj [("pushover", JValue.null)]) "pushover"
      = some JValue.null := by
  refine ⟨rfl, ?_, rfl, rfl⟩
  intro h
  simp at h

lemma validBool_eq_defaultFill (v : Option JValue) (dflt : Bool) :
    validBool v dflt = defaultFillBool v dflt := by
  cases v with
  | none => rfl
  | some w => cases w <;> rfl

lemma validArr_eq_defaultFill (v : Option JValue) :
    validArr v = defaultFillArr v := by
  cases v with
  | none => rfl
  | some w => cases w <;> rfl

lemma validNum_eq_defaultFill (v : Option JValue) (dflt : Int) :
    validNum v dflt = defaultFillNum v dflt := by
  cases v with
  | none => rfl
  | some w => cases w <;> rfl

lemma getField_jsOr_obj (v : Option JValue) (k : String) :
    getField (jsOr v (JValue.obj [])) k = optGetField v k := by
  cases v with
  | none => rfl
  | some w =>
      cases w <;> simp only [jsOr, optGetField, truthy] <;>
        first | rfl | (split <;> rfl)

lemma validFilters_spec (fv : Option JValue) :
    validFilters fv = JValue.obj [
      ("onlyWhenAway",
        JValue.bool (defaultFillBool (optGetField fv "onlyWhenAway") true)),
      ("highlights",
        JValue.bool (defaultFillBool (optGetField fv "highlights") true)),
      ("keywords",
        JValue.arr (defaultFillArr (optGetField fv "keywords"))),
      ("channels", JValue.obj [
        ("whitelist", JValue.arr
          (defaultFillArr (optGetField (optGetField fv "channels") "whitelist"))),
        ("blacklist", JValue.arr
          (defaultFillArr (optGetField (optGetField fv "channels") "blacklist")))])] := by
  simp only [validFilters, getField_jsOr_obj, validBool_eq_defaultFill,
    validArr_eq_defaultFill]

/-- C8 amended: every field behind a typeof or Array.isArray guard takes
    the documented default-fill behavior - enabled, the whole filters
    subtree (onlyWhenAway default true, highlights default true, keywords
    default empty, whitelist and blacklist default empty, read through
    possibly absent or mistyped parent objects) and pushover priority
    (default 0) keep a well-typed input value and are replaced by their
    documented default when absent or mistyped - while services falls
    back to the default empty map only when absent or falsy (a truthy
    mistyped value passes through, as the counterexample shows), a truthy
    pushover entry is normalized in place with its string fields falling
    back only when falsy, and load returns the full default configuration
    when the file does not exist or its JSON does not parse. -/
theorem validateConfig_amended (fs : List (String × JValue)) :
    getField (validateConfig (JValue.obj fs)) "enabled"
      = some (JValue.bool
          (defaultFillBool (getField (JValue.obj fs) "enabled") false)) ∧
    getField (validateConfig (JValue.obj fs)) "filters"
      = some (JValue.obj [
          ("onlyWhenAway", JValue.bool (defaultFillBool
            (optGetField (getField (JValue.obj fs) "filters") "onlyWhenAway") true)),
          ("highlights", JValue.bool (defaultFillBool
            (optGetField (getField (JValue.obj fs) "filters") "highlights") true)),
          ("keywords", JValue.arr (defaultFillArr
            (optGetField (getField (JValue.obj fs) "filters") "keywords"))),
          ("channels", JValue.obj [
            ("whitelist", JValue.arr (defaultFillArr (optGetField
              (optGetField (getField (JValue.obj fs) "filters") "channels")
              "whitelist"))),
            ("blacklist", JValue.arr (defaultFillArr (optGetField
              (optGetField (getField (JValue.obj fs) "filters") "channels")
              "blacklist")))])]) ∧
    (∀ v, getField (JValue.obj fs) "services" = some v → truthy v = false →
      getField (validateConfig (JValue.obj fs)) "services"
        = some (JValue.obj [])) ∧
    (getField (JValue.obj fs) "services" = none →
      getField (validateConfig (JValue.obj fs)) "services"
        = some (JValue.obj [])) ∧
    (∀ sv p, getField (JValue.obj fs) "services" = some sv →
      getField sv "pushover" = some p → truthy p = true →
      getField (validateConfig (JValue.obj fs)) "services"
        = some (setField sv "pushover" (validPushover p))) ∧
    (∀ p : JValue,
      getField (validPushover p) "priority"
        = some (JValue.num (defaultFillNum (getField p "priority") 0)) ∧
      getField (validPushover p) "userKey"
        = some (jsOr (getField p "userKey") (JValue.str "")) ∧
      getField (validPushover p) "apiToken"
        = some (jsOr (getField p "apiToken") (JValue.str "")) ∧
      getField (validPushover p) "sound"
        = some (jsOr (getField p "sound") (JValue.str "pushover"))) ∧
    (∀ p : Option JValue, ConfigManager.load false p = getDefaultConfig) ∧
    ConfigManager.load true none = getDefaultConfig := by
  have hsv : getField (validateConfig (JValue.obj fs)) "services"
      = some (validServices (getField (JValue.obj fs) "services")) := rfl
  have he : getField (validateConfig (JValue.obj fs)) "enabled"
      = some (JValue.bool (validBool (getField (JValue.obj fs) "enabled") false)) := rfl
  have hf : getField (validateConfig (JValue.obj fs)) "filters"
      = some (validFilters (getField (JValue.obj fs) "filters")) := rfl
  refine ⟨?_, ?_, ?_, ?_, ?_, ?_, fun p => rfl, rfl⟩
  · rw [he, validBool_eq_defaultFill]
  · rw [hf, validFilters_spec]
  · intro v hv htr
    rw [hsv, hv]
    simp [validServices, jsOr, htr, getField]
  · intro hv
    rw [hsv, hv]
    simp [validServices, jsOr, getField]
  · intro sv p hsvv hp htr
    rw [hsv, hsvv]
    cases sv with
    | obj fields =>
        have hred : validServices (some (JValue.obj fields))
            = setField (JValue.obj fields) "pushover" (validPushover p) := by
          simp only [validServices]
          rw [show jsOr (some (JValue.obj fields)) (JValue.obj [])
              = JValue.obj fields from rfl]
          rw [hp]
          simp [htr]
        rw [hred]
    | null => simp [getField] at hp
    | bool b => simp [getField] at hp
    | num n => simp [getField] at hp
    | str s => simp [getField] at hp
    | arr xs => simp [getField] at hp
  · intro p
    have hpr : getField (validPushover p) "priority"
        = some (JValue.num (validNum (getField p "priority") 0)) := rfl
    exact ⟨by rw [hpr, validNum_eq_defaultFill], rfl, rfl, rfl⟩

theorem validateConfig_amended_witness :
    getField (validateConfig (JValue.obj
        [("enabled", JValue.str "yes"), ("services", JValue.bool false),
         ("filters", JValue.obj [("highlights", JValue.num 1)])])) "enabled"
      = some (JValue.bool false) ∧
    getField (validateConfig (JValue.obj
        [("enabled", JValue.str "yes"), ("services", JValue.bool false),
         ("filters", JValue.obj [("highlights", JValue.num 1)])])) "filters"
      = some (JValue.obj [
          ("onlyWhenAway", JValue.bool true),
          ("highlights", JValue.bool true),
          ("keywords", JValue.arr []),
          ("channels", JValue.obj [
            ("whitelist", JValue.arr []),
            ("blacklist", JValue.arr [])])]) ∧
    getField (validateConfig (JValue.obj
        [("enabled", JValue.str "yes"), ("services", JValue.bool false),
         ("filters", JValue.obj [("highlights", JValue.num 1)])])) "services"
      = some (JValue.obj []) ∧
    getField (validPushover (JValue.obj [("priority", JValue.str "0")]))
        "priority" = some (JValue.num 0) ∧
    ConfigManager.load false (some (JValue.num 3)) = getDefaultConfig := by
  have h := validateConfig_amended
    [("enabled", JValue.str "yes"), ("services", JValue.bool false),
     ("filters", JValue.obj [("highlights", JValue.num 1)])]
  exact ⟨h.1, h.2.1, h.2.2.1 (JValue.bool false) rfl rfl,
    (h.2.2.2.2.2.1 (JValue.obj [("priority", JValue.str "0")])).1,
    h.2.2.2.2.2.2.1 (some (JValue.num 3))⟩
